import Mathlib

/-!
Shallow embedding of `aui-adapter-pc` (files `pc_pygame_io.py` and
`aui_adapter_pc.py`).

The pygame / asyncio effects are made explicit:

* the mutable fields `self._mixer_ready` / `self._mixer_rate` of `PcPygameIO`
  become the record `MixerState`;
* every externally visible call into pygame (mixer init/quit, sound playback,
  display acquisition and release, DTMF-callback invocation, logging) becomes
  an element of the event type `Ev`, and each embedded function returns the
  list of events it emits in order;
* the environment (whether `pygame.mixer.init` succeeds at a given rate,
  whether `pygame.display.set_mode` succeeds, whether the user callback
  raises) is a record `Env` of oracles.

`pc_pygame_io.py` never calls any logging facility (it does not even import
`logging`); the constructor `Ev.logMsg` exists so that the absence of log
events is expressible.
-/

/-- One externally visible effect of the embedded code. -/
inductive Ev
  /-- `pygame.init()` at the top of `run_forever`. -/
  | pygameInit
  /-- `pygame.display.set_mode(...)` (window acquisition attempt). -/
  | setMode
  /-- `pygame.Surface(...)` (off-screen surface, `show_window=False`). -/
  | surfaceCreate
  /-- `pygame.font.SysFont(...)` calls. -/
  | fontCreate
  /-- `pygame.mixer.quit()`. -/
  | mixerQuit
  /-- `pygame.mixer.init(frequency=rate, size=-16, channels=1, buffer=512)`;
      `ok` records whether the call succeeded in the environment. -/
  | mixerInit (rate : Int) (ok : Bool)
  /-- `pygame.mixer.Sound(buffer=...).play()`. -/
  | soundPlay
  /-- invocation of the user-supplied `on_key` callback with character `ch`. -/
  | callbackCall (ch : Char)
  /-- a call into a logging facility (never emitted by `pc_pygame_io.py`). -/
  | logMsg
  /-- `pygame.display.quit()`. -/
  | displayQuit
  /-- `pygame.quit()`. -/
  | pygameQuit
deriving DecidableEq, Repr

/-- The oracles describing the external world:
whether `pygame.mixer.init` succeeds at a given frequency, whether
`pygame.display.set_mode` succeeds, and whether the user callback raises on a
given character. -/
structure Env where
  mixerOk : Int → Bool
  displayOk : Bool
  cbRaises : Char → Bool

/-- The mixer-related mutable fields of `PcPygameIO`:
`self._mixer_ready` and `self._mixer_rate`. -/
structure MixerState where
  mixer_ready : Bool
  mixer_rate : Option Int
deriving DecidableEq, Repr

/-- The state the constructor `PcPygameIO.__init__` gives the mixer fields:
`self._mixer_ready = False`, `self._mixer_rate = None`. -/
def initMixerState : MixerState := ⟨false, none⟩

/-- `PcPygameIO._try_init_mixer(rate)`: attempts
`pygame.mixer.init(frequency=rate, size=-16, channels=1, buffer=512)`;
on success sets `_mixer_ready = True`, `_mixer_rate = rate`; on exception
sets `_mixer_ready = False`, `_mixer_rate = None`.  The two fields are
overwritten in both branches, so the incoming mixer state is not needed. -/
def tryInitMixer (env : Env) (rate : Int) : MixerState × List Ev :=
  if env.mixerOk rate then
    (⟨true, some rate⟩, [Ev.mixerInit rate true])
  else
    (⟨false, none⟩, [Ev.mixerInit rate false])

/-- `PcPygameIO._ensure_mixer(rate)`: fast path when the mixer is ready at
exactly `rate`; otherwise `pygame.mixer.quit()` if currently ready, then
`_try_init_mixer(rate)`; returns `self._mixer_ready`. -/
def ensureMixer (env : Env) (rate : Int) (s : MixerState) :
    Bool × MixerState × List Ev :=
  if s.mixer_ready = true ∧ s.mixer_rate = some rate then
    (true, s, [])
  else
    let quitEvs := if s.mixer_ready then [Ev.mixerQuit] else []
    let t := tryInitMixer env rate
    (t.1.mixer_ready, t.1, quitEvs ++ t.2)

/-- The `PcmAudio` object consumed by `play_pcm`: a sample rate (a Python
`int`, hence `Int`) and raw bytes.  `audio.data` is modelled as the list of
its bytes. -/
structure PcmAudio where
  rate : Int
  data : List UInt8
deriving DecidableEq, Repr

/-- `PcPygameIO.play_pcm(audio)`:
returns immediately when `audio.data` is empty or `audio.rate <= 0`;
then `_ensure_mixer(audio.rate)` and, on failure, returns;
then drops buffers of odd byte length;
finally `pygame.mixer.Sound(buffer=audio.data).play()` inside
`try/except: pass`. -/
def playPcm (env : Env) (audio : PcmAudio) (s : MixerState) :
    MixerState × List Ev :=
  if audio.data = [] then (s, [])
  else if audio.rate ≤ 0 then (s, [])
  else
    let e := ensureMixer env audio.rate s
    if e.1 = false then (e.2.1, e.2.2)
    else if audio.data.length % 2 ≠ 0 then (e.2.1, e.2.2)
    else (e.2.1, e.2.2 ++ [Ev.soundPlay])

/-- `PcPygameIO._shutdown_pygame()`: `pygame.mixer.quit()` if ready,
`pygame.display.quit()`, `pygame.quit()` (each inside `try/except: pass`),
then `_mixer_ready = False`, `_mixer_rate = None`. -/
def shutdownMixerEvents (s : MixerState) : List Ev :=
  (if s.mixer_ready then [Ev.mixerQuit] else [])
    ++ [Ev.displayQuit, Ev.pygameQuit]

/-- Whether an event is a device (re)configuration action: a mixer close or a
mixer open attempt. -/
def isReconfigEv : Ev → Bool
  | Ev.mixerQuit => true
  | Ev.mixerInit _ _ => true
  | _ => false

/-- Whether a list of emitted events contains a device reconfiguration. -/
def hasReconfig (evs : List Ev) : Bool := evs.any isReconfigEv

/-- Whether an event is a successful device open. -/
def isSuccInitEv : Ev → Bool
  | Ev.mixerInit _ ok => ok
  | _ => false

/-- Number of successful device opens in a trace. -/
def succInitCount (evs : List Ev) : Nat := evs.countP isSuccInitEv

/-- Number of device closes in a trace. -/
def quitCount (evs : List Ev) : Nat := evs.count Ev.mixerQuit

/-- One if the mixer is currently open, zero otherwise. -/
def readyBit (s : MixerState) : Nat := if s.mixer_ready then 1 else 0

/-- A playback submission carrying two zero bytes (a well-formed, non-empty,
even-length 16-bit buffer) at rate `r`; used to model rate sequences of
valid submissions. -/
def validAudio (r : Int) : PcmAudio := ⟨r, [0, 0]⟩

/-- Submit `validAudio r` for each `r` in the list in order, collecting for
each submission whether it caused a device reconfiguration. -/
def reconfigFlags (env : Env) (s : MixerState) : List Int → List Bool
  | [] => []
  | r :: rs =>
      hasReconfig (playPcm env (validAudio r) s).2
        :: reconfigFlags env (playPcm env (validAudio r) s).1 rs

/-- The reconfiguration pattern the spec predicts for a rate sequence that
starts with the device configured at `prev`. -/
def expectedFlagsFrom (prev : Int) : List Int → List Bool
  | [] => []
  | r :: rs => decide (r ≠ prev) :: expectedFlagsFrom r rs

/-- The reconfiguration pattern the spec predicts from an unconfigured
device: the first submission always reconfigures, later ones exactly when
the rate changes. -/
def expectedFlags : List Int → List Bool
  | [] => []
  | r :: rs => true :: expectedFlagsFrom r rs

/-- Final mixer state after submitting `validAudio r` for each `r`. -/
def submitAll (env : Env) (s : MixerState) : List Int → MixerState
  | [] => s
  | r :: rs => submitAll env (playPcm env (validAudio r) s).1 rs

/-- A `pygame.Rect`: position and extent, in integer screen coordinates. -/
structure Rect where
  x : Int
  y : Int
  w : Int
  h : Int
deriving DecidableEq, Repr

/-- Two rectangles overlap when their interiors intersect: some point lies
strictly inside both horizontal spans and both vertical spans.  A rectangle
of non-positive width or height has empty interior and overlaps nothing. -/
def Rect.overlaps (a b : Rect) : Bool :=
  (max a.x b.x < min (a.x + a.w) (b.x + b.w)) &&
  (max a.y b.y < min (a.y + a.h) (b.y + b.h))

/-- `pygame.Rect.collidepoint`: a point is inside when it lies within the
rectangle; points on the right or bottom edge are not considered inside. -/
def Rect.collidepoint (r : Rect) (px py : Int) : Bool :=
  (r.x ≤ px) && (px < r.x + r.w) && (r.y ≤ py) && (py < r.y + r.h)

/-- The label table of `_build_keypad_layout`, row-major. -/
def keypadLabels : List Char :=
  ['1', '2', '3',
   '4', '5', '6',
   '7', '8', '9',
   '*', '0', '#']

/-- `PcPygameIO._build_keypad_layout`, as a pure function of the window size
`(w, h)` (the Python method reads them from `self._screen.get_size()`).
Python `//` is floor division; all divisors here (`cols`, `rows`, `2`) are
positive, so it coincides with the Euclidean division `/` on `Int`. -/
def buildKeypadLayout (w h : Int) : List (Char × Rect) :=
  let top : Int := 70
  let margin : Int := 12
  let rows : Int := 4
  let cols : Int := 3
  let cell_w := w - (cols + 1) * margin
  let cell_h := h - top - (rows + 1) * margin
  let size := min (cell_w / cols) (cell_h / rows)
  let x0 := (w - (cols * size + (cols - 1) * margin)) / 2
  let y0 := top
  (List.range 4).flatMap (fun r =>
    (List.range 3).map (fun c =>
      (keypadLabels.getD (r * 3 + c) ' ',
       ⟨x0 + (c : Int) * (size + margin),
        y0 + (r : Int) * (size + margin), size, size⟩)))

/-- A `_Button`: label, rectangle, and the end instant of the short pressed
animation (`active_until_ms`, initialised to `0`). -/
structure Button where
  label : Char
  rect : Rect
  active_until_ms : Int
deriving DecidableEq, Repr

/-- The `self._buttons` list that `_build_keypad_layout` produces: one
`_Button` per layout entry, `active_until_ms = 0`. -/
def mkButtons (layout : List (Char × Rect)) : List Button :=
  layout.map fun p => ⟨p.1, p.2, 0⟩

/-- `_ALLOWED = set("0123456789*#")`. -/
def allowedChars : List Char := "0123456789*#".toList

/-- The first loop of `_send_key`: give the first button whose label is `ch`
a pressed animation until `now + 120` ms, leave the rest untouched, stop at
the first match (the Python loop breaks). -/
def markPressed (ch : Char) (now : Int) : List Button → List Button
  | [] => []
  | b :: bs =>
      if b.label = ch then {b with active_until_ms := now + 120} :: bs
      else b :: markPressed ch now bs

/-- The `self._on_key(ch)` call: one callback invocation, together with
whether the callback raised in this environment. -/
def invokeCallback (env : Env) (ch : Char) : List Ev × Bool :=
  ([Ev.callbackCall ch], env.cbRaises ch)

/-- `PcPygameIO._send_key(ch, now_ms)`: mark the matching button pressed,
then call the callback inside `try/except Exception: pass` — the raised
flag is discarded, execution continues, and no logging call is made. -/
def sendKey (env : Env) (ch : Char) (now : Int) (btns : List Button) :
    List Button × List Ev :=
  let btns' := markPressed ch now btns
  let call := invokeCallback env ch
  (btns', call.1)

/-- The loop of `_handle_click`: the label of the first button containing
the point, if any. -/
def findClicked (px py : Int) : List Button → Option Char
  | [] => none
  | b :: bs =>
      if b.rect.collidepoint px py then some b.label else findClicked px py bs

/-- `PcPygameIO._handle_click(pos, now_ms)`: forward the first hit button's
label to `_send_key`; no hit, no effect. -/
def handleClick (env : Env) (px py now : Int) (btns : List Button) :
    List Button × List Ev :=
  match findClicked px py btns with
  | some ch => sendKey env ch now btns
  | none => (btns, [])

/-- One raw pygame event as drained by the loop body of `run_forever`. -/
inductive InEvent
  /-- `pygame.QUIT` (window close). -/
  | quit
  /-- `pygame.KEYDOWN` with unicode payload `ch`. -/
  | keydown (ch : Char)
  /-- `pygame.MOUSEBUTTONDOWN` with mouse-button number and position. -/
  | mousedown (button : Nat) (x y : Int)
deriving DecidableEq, Repr

/-- One loop iteration's external input: the tick timestamp
(`pygame.time.get_ticks()`), the drained event batch, and the playback
submissions that arrive while the loop is suspended in `await asyncio.sleep`
at the end of this iteration (the adapter's `play` runs on the same
single-threaded scheduler, interleaved between iterations). -/
structure Frame where
  now : Int
  events : List InEvent
  plays : List PcmAudio

/-- The mutable fields of `PcPygameIO` that the loop touches. -/
structure IOState where
  mixer : MixerState
  stop : Bool
  started : Bool
  screen : Bool
  fonts : Bool
  buttons : List Button
deriving DecidableEq, Repr

/-- The state `PcPygameIO.__init__` leaves behind: nothing started, nothing
acquired, no buttons. -/
def initIOState : IOState := ⟨initMixerState, false, false, false, false, []⟩

/-- The event-draining `for` loop of `run_forever`: `QUIT` sets the stop
flag and breaks (remaining events of the batch are not processed);
`KEYDOWN` with an allowed character goes to `_send_key`; a left
(`button == 1`) `MOUSEBUTTONDOWN` goes to `_handle_click`. -/
def processEvents (env : Env) (now : Int) :
    List InEvent → IOState → IOState × List Ev
  | [], s => (s, [])
  | InEvent.quit :: _, s => ({s with stop := true}, [])
  | InEvent.keydown ch :: rest, s =>
      if ch ∈ allowedChars then
        let k := sendKey env ch now s.buttons
        let p := processEvents env now rest {s with buttons := k.1}
        (p.1, k.2 ++ p.2)
      else processEvents env now rest s
  | InEvent.mousedown btn px py :: rest, s =>
      if btn = 1 then
        let k := handleClick env px py now s.buttons
        let p := processEvents env now rest {s with buttons := k.1}
        (p.1, k.2 ++ p.2)
      else processEvents env now rest s

/-- Run a batch of interleaved `play_pcm` submissions on the shared mixer
state, in order. -/
def runPlays (env : Env) : List PcmAudio → MixerState → MixerState × List Ev
  | [], m => (m, [])
  | a :: rest, m =>
      let p := playPcm env a m
      let q := runPlays env rest p.1
      (q.1, p.2 ++ q.2)

/-- One full iteration of the `while not self._stop` loop: drain events,
render (no modelled effect), then yield — during the yield the frame's
playback submissions run against the shared mixer. -/
def loopStep (env : Env) (f : Frame) (s : IOState) : IOState × List Ev :=
  let p := processEvents env f.now f.events s
  let q := runPlays env f.plays p.1.mixer
  ({p.1 with mixer := q.1}, p.2 ++ q.2)

/-- The `while not self._stop` loop over a finite supply of frames.  The
third component tells whether the loop exited (observed the stop flag); if
the frame supply runs out first, the real loop is still running. -/
def runLoop (env : Env) : List Frame → IOState → IOState × List Ev × Bool
  | [], s => (s, [], s.stop)
  | f :: fs, s =>
      if s.stop then (s, [], true)
      else
        let p := loopStep env f s
        let q := runLoop env fs p.1
        (q.1, p.2 ++ q.2.1, q.2.2)

/-- `PcPygameIO._shutdown_pygame()` at the `IOState` level: emit the release
events and reset the mixer fields (it touches nothing else; `_started` and
`_screen` are reset by `run_forever`'s `finally`, not here). -/
def shutdownPygame (s : IOState) : IOState × List Ev :=
  ({s with mixer := initMixerState}, shutdownMixerEvents s.mixer)

/-- How a modelled `run_forever` invocation ended. -/
inductive Outcome
  /-- the reentrancy guard `if self._started: return` fired. -/
  | alreadyStarted
  /-- `pygame.display.set_mode` raised; the `finally` block cleaned up and
      the exception propagated out of the coroutine. -/
  | startupFailed
  /-- the loop observed the stop flag and shut down normally. -/
  | finished
  /-- the frame supply was exhausted with the loop still running. -/
  | outOfFrames
deriving DecidableEq, Repr

/-- The constructor arguments of `PcPygameIO` that `run_forever` reads. -/
structure Config where
  show_window : Bool
  default_rate : Int
  window_w : Int
  window_h : Int

/-- `PcPygameIO.run_forever()`: reentrancy guard; `pygame.init()`; window or
off-screen surface; two `SysFont` calls; `_try_init_mixer(default_rate)`
(failure tolerated); `_build_keypad_layout()`; then the polling loop; the
`finally` block runs `_shutdown_pygame()` and resets `_started`/`_screen`
on every exit path, including a `set_mode` failure during startup. -/
def runForever (env : Env) (cfg : Config) (frames : List Frame) (s : IOState) :
    IOState × List Ev × Outcome :=
  if s.started then (s, [], Outcome.alreadyStarted)
  else
    let s1 : IOState := {s with started := true}
    if cfg.show_window = true ∧ env.displayOk = false then
      let d := shutdownPygame s1
      ({d.1 with started := false, screen := false},
       [Ev.pygameInit, Ev.setMode] ++ d.2, Outcome.startupFailed)
    else
      let acquireEv := if cfg.show_window then Ev.setMode else Ev.surfaceCreate
      let s2 : IOState := {s1 with screen := true, fonts := true}
      let t := tryInitMixer env cfg.default_rate
      let btns := mkButtons (buildKeypadLayout cfg.window_w cfg.window_h)
      let s3 : IOState := {s2 with mixer := t.1, buttons := btns}
      let l := runLoop env frames s3
      let startEvs := [Ev.pygameInit, acquireEv, Ev.fontCreate, Ev.fontCreate] ++ t.2
      if l.2.2 then
        let d := shutdownPygame l.1
        ({d.1 with started := false, screen := false},
         startEvs ++ l.2.1 ++ d.2, Outcome.finished)
      else
        (l.1, startEvs ++ l.2.1, Outcome.outOfFrames)

/-- `PcAdapter.AdapterState`. -/
inductive AdapterState
  | UNKNOWN
  | INITIALIZED
  | RUNNING
  | STOPPED
deriving DecidableEq, Repr

/-- The error the spec says `start()` raises when the windowing or audio
subsystem cannot be acquired.  No such class exists in the source; the type
exists here so that the claimed behaviour is statable. -/
inductive InitializationError
  | mk
deriving DecidableEq, Repr

/-- `PcAdapter.start()`: guards the adapter state; on a valid state it
schedules `run_forever` with `asyncio.create_task` — the coroutine body has
not begun executing when `start` returns — and sets the state to `RUNNING`.
It contains no `raise` and no `await` of the task, so its synchronous result
cannot depend on the environment: `env` is deliberately unread. -/
def adapterStart (env : Env) (st : AdapterState) :
    Except InitializationError AdapterState :=
  if st = AdapterState.INITIALIZED ∨ st = AdapterState.STOPPED then
    Except.ok AdapterState.RUNNING
  else
    Except.ok st

/-- `PcAdapter.stop()` at the state level: a `RUNNING` adapter moves to
`STOPPED` (after signalling and awaiting the loop task); in any other state
the call only logs a warning and returns.  This is the only operation of
the adapter that ever sets `STOPPED` — a window-close or a startup failure
ends the loop task but leaves the adapter state `RUNNING`. -/
def adapterStop (st : AdapterState) : AdapterState :=
  if st = AdapterState.RUNNING then AdapterState.STOPPED else st

/-- `PcAdapter.play(audio)`: refuses (log only, no pygame call) unless the
adapter state is `RUNNING`; drops empty buffers; otherwise forwards to
`play_pcm`.  (`self._pg` is always set once `init` has run; its `None`
check is subsumed by the state guard here.) -/
def adapterPlay (env : Env) (st : AdapterState) (audio : PcmAudio)
    (m : MixerState) : MixerState × List Ev :=
  if st ≠ AdapterState.RUNNING then (m, [])
  else if audio.data = [] then (m, [])
  else playPcm env audio m

/-- An environment in which every external operation succeeds and the
callback never raises. -/
def envAllOk : Env := ⟨fun _ => true, true, fun _ => false⟩

/-- An environment in which `pygame.mixer.init` always raises. -/
def envMixerFails : Env := ⟨fun _ => false, true, fun _ => false⟩

/-- An environment in which `pygame.display.set_mode` raises (headless). -/
def envDisplayFails : Env := ⟨fun _ => true, false, fun _ => false⟩

/-- An environment in which the user callback always raises. -/
def envCallbackRaises : Env := ⟨fun _ => true, true, fun _ => true⟩

/-- The per-request state/effect invariant used below: configured implies a
stored rate is present. -/
def RateInv (s : MixerState) : Prop :=
  s.mixer_ready = true → ∃ r, s.mixer_rate = some r

/-- The classes of events the polling loop can emit between startup and
shutdown: device reconfigurations, playback, and callback invocations. -/
def loopEvClass (e : Ev) : Prop :=
  isReconfigEv e = true ∨ e = Ev.soundPlay ∨ ∃ ch, e = Ev.callbackCall ch

/-- The `IOState` with which `run_forever` enters its polling loop after a
successful startup: started, surface and fonts acquired, mixer as left by
`_try_init_mixer(default_rate)`, buttons laid out. -/
def startState (env : Env) (cfg : Config) (s : IOState) : IOState :=
  {s with
    started := true
    screen := true
    fonts := true
    mixer := (tryInitMixer env cfg.default_rate).1
    buttons := mkButtons (buildKeypadLayout cfg.window_w cfg.window_h)}

/-- The events a successful `run_forever` startup emits before the loop. -/
def startEvsOf (env : Env) (cfg : Config) : List Ev :=
  [Ev.pygameInit, if cfg.show_window then Ev.setMode else Ev.surfaceCreate,
   Ev.fontCreate, Ev.fontCreate] ++ (tryInitMixer env cfg.default_rate).2

lemma ensureMixer_eq (env : Env) (r : Int) (s : MixerState) :
    ensureMixer env r s =
      if s.mixer_ready = true ∧ s.mixer_rate = some r then (true, s, [])
      else if env.mixerOk r = true then
        (true, ⟨true, some r⟩,
         (if s.mixer_ready then [Ev.mixerQuit] else []) ++ [Ev.mixerInit r true])
      else
        (false, ⟨false, none⟩,
         (if s.mixer_ready then [Ev.mixerQuit] else []) ++ [Ev.mixerInit r false]) := by
  by_cases h1 : s.mixer_ready = true ∧ s.mixer_rate = some r
  · simp [ensureMixer, h1]
  · by_cases ho : env.mixerOk r = true
    · simp [ensureMixer, tryInitMixer, h1, ho]
    · simp [ensureMixer, tryInitMixer, h1, ho]

lemma playPcm_valid_eq (env : Env) (r : Int) (hr : 0 < r)
    (hok : env.mixerOk r = true) (s : MixerState) :
    playPcm env (validAudio r) s =
      if s.mixer_ready = true ∧ s.mixer_rate = some r then (s, [Ev.soundPlay])
      else (⟨true, some r⟩,
        (if s.mixer_ready then [Ev.mixerQuit] else [])
          ++ [Ev.mixerInit r true, Ev.soundPlay]) := by
  have hr' : ¬ (r ≤ 0) := by omega
  by_cases h1 : s.mixer_ready = true ∧ s.mixer_rate = some r
  · simp [playPcm, validAudio, ensureMixer_eq, h1, hr']
  · simp [playPcm, validAudio, ensureMixer_eq, h1, hr', hok]

/-- C2: `ensure_device` is idempotent: a second `_ensure_mixer(r)` right
after a first one returns the same success flag and leaves the same mixer
state, and when the mixer is already ready at `r` the call is a pure fast
path: no quit, no init, immediate success. -/
theorem ensure_device_idempotent (env : Env) (r : Int) (hr : 0 < r)
    (s : MixerState) :
    (ensureMixer env r (ensureMixer env r s).2.1).2.1 = (ensureMixer env r s).2.1
    ∧ (ensureMixer env r (ensureMixer env r s).2.1).1 = (ensureMixer env r s).1
    ∧ (s.mixer_ready = true → s.mixer_rate = some r →
        ensureMixer env r s = (true, s, [])) := by
  by_cases h1 : s.mixer_ready = true ∧ s.mixer_rate = some r
  · simp [ensureMixer_eq, h1]
  · by_cases ho : env.mixerOk r = true
    · simp only [ensureMixer_eq, h1, ho]
      simp
      tauto
    · simp only [ensureMixer_eq, h1, ho]
      simp
      tauto

theorem ensure_device_idempotent_witness :
    (ensureMixer envAllOk 8000 (ensureMixer envAllOk 8000 initMixerState).2.1).2.1
      = (ensureMixer envAllOk 8000 initMixerState).2.1 :=
  (ensure_device_idempotent envAllOk 8000 (by decide) initMixerState).1

lemma ensureMixer_no_soundPlay (env : Env) (r : Int) (s : MixerState) :
    Ev.soundPlay ∉ (ensureMixer env r s).2.2 := by
  rw [ensureMixer_eq]
  by_cases h1 : s.mixer_ready = true ∧ s.mixer_rate = some r
  · simp [h1]
  · by_cases ho : env.mixerOk r = true
    · by_cases h2 : s.mixer_ready <;> simp_all
    · by_cases h2 : s.mixer_ready <;> simp_all

/-- C3 counterexample: an odd-length (five-byte) buffer at rate 8000,
submitted to the unconfigured device, does cause device reconfiguration
(a mixer-init event) and does flip the configured flag and store the rate —
the length check of `play_pcm` runs only after `_ensure_mixer`.  The claim
that malformed requests never reconfigure the device is therefore false. -/
theorem malformed_no_reconfig_cx :
    hasReconfig (playPcm envAllOk ⟨8000, [0, 0, 0, 0, 0]⟩ initMixerState).2 = true
    ∧ (playPcm envAllOk ⟨8000, [0, 0, 0, 0, 0]⟩ initMixerState).1 ≠ initMixerState
    ∧ (playPcm envAllOk ⟨8000, [0, 0, 0, 0, 0]⟩ initMixerState).1
        = ⟨true, some 8000⟩
    ∧ Ev.soundPlay ∉ (playPcm envAllOk ⟨8000, [0, 0, 0, 0, 0]⟩ initMixerState).2 := by
  decide

/-- C3 amended: `play_pcm` never raises (it is a total function here); a
request with empty samples or non-positive rate is a complete no-op (state
unchanged, no device event, no playback); a request with an odd byte length
never reaches the playback call — but, the length being checked only after
`_ensure_mixer`, it may still reconfigure the device. -/
theorem malformed_request_amended (env : Env) (audio : PcmAudio)
    (s : MixerState) :
    (audio.data = [] ∨ audio.rate ≤ 0 → playPcm env audio s = (s, []))
    ∧ (audio.data.length % 2 ≠ 0 → Ev.soundPlay ∉ (playPcm env audio s).2) := by
  constructor
  · intro h
    by_cases hd : audio.data = []
    · simp [playPcm, hd]
    · have hr0 : audio.rate ≤ 0 := by tauto
      simp [playPcm, hd, hr0]
  · intro hodd
    by_cases hd : audio.data = []
    · simp [playPcm, hd]
    · by_cases hr0 : audio.rate ≤ 0
      · simp [playPcm, hd, hr0]
      · have hnp := ensureMixer_no_soundPlay env audio.rate s
        by_cases hfail : (ensureMixer env audio.rate s).1 = false
        · simp only [playPcm, hd, hr0, hfail, if_neg, if_pos, ite_true, ite_false]
          simpa [hd, hr0] using hnp
        · simp only [playPcm, hd, hr0, hfail, hodd]
          simpa [hd, hr0, hfail, hodd] using hnp

theorem malformed_request_amended_witness :
    Ev.soundPlay ∉ (playPcm envAllOk ⟨8000, [0, 0, 0, 0, 0]⟩ initMixerState).2 :=
  (malformed_request_amended envAllOk ⟨8000, [0, 0, 0, 0, 0]⟩ initMixerState).2
    (by decide)

/-- C4 counterexample: an accepted request at rate 8000 (playback occurs,
device stores 8000), followed by an odd-length — hence rejected — request
at rate 16000, leaves the device configured with stored rate 16000, which
differs from the rate of the most recently accepted request (8000).  The
claimed invariant tying the stored rate to the last accepted request is
therefore false. -/
theorem configured_rate_inv_cx :
    (playPcm envAllOk ⟨8000, [0, 0]⟩ initMixerState).1 = ⟨true, some 8000⟩
    ∧ Ev.soundPlay ∈ (playPcm envAllOk ⟨8000, [0, 0]⟩ initMixerState).2
    ∧ Ev.soundPlay ∉
        (playPcm envAllOk ⟨16000, [0, 0, 0, 0, 0]⟩ ⟨true, some 8000⟩).2
    ∧ (playPcm envAllOk ⟨16000, [0, 0, 0, 0, 0]⟩ ⟨true, some 8000⟩).1
        = ⟨true, some 16000⟩
    ∧ (16000 : Int) ≠ 8000 := by
  decide

lemma ensureMixer_rateInv (env : Env) (r : Int) (s : MixerState)
    (h : RateInv s) :
    RateInv (ensureMixer env r s).2.1
    ∧ ((ensureMixer env r s).2.1.mixer_ready = true →
        (ensureMixer env r s).2.1 = s
        ∨ (ensureMixer env r s).2.1.mixer_rate = some r) := by
  rw [ensureMixer_eq]
  by_cases h1 : s.mixer_ready = true ∧ s.mixer_rate = some r
  · simp [h1, h]
  · by_cases ho : env.mixerOk r = true
    · simp [h1, ho, RateInv]
    · simp [h1, ho, RateInv]

lemma playPcm_state_cases (env : Env) (audio : PcmAudio) (s : MixerState) :
    (playPcm env audio s).1 = s
    ∨ (playPcm env audio s).1 = (ensureMixer env audio.rate s).2.1 := by
  by_cases hd : audio.data = []
  · left; simp [playPcm, hd]
  · by_cases hr0 : audio.rate ≤ 0
    · left; simp [playPcm, hd, hr0]
    · right
      by_cases hfail : (ensureMixer env audio.rate s).1 = false
      · simp [playPcm, hd, hr0, hfail]
      · by_cases hodd : audio.data.length % 2 ≠ 0
        · simp [playPcm, hd, hr0, hfail, hodd]
        · simp [playPcm, hd, hr0, hfail, hodd]

/-- C4 amended: the invariant that actually holds ties the stored rate to
the most recent successful device open, not to the most recent accepted
request: whenever the mixer is ready some rate is stored; after any of
`play_pcm`, `_ensure_mixer`, `_try_init_mixer` (also the loop-start init)
leaves the mixer ready, the stored rate is either unchanged from a state
that already satisfied the invariant or equal to the rate just ensured —
a request that passes the emptiness and positivity checks retunes the
device to its rate even if it is later rejected for odd length; loop
shutdown resets the mixer to the unconfigured state. -/
theorem configured_rate_inv_amended :
    (∀ env audio s, RateInv s →
       RateInv (playPcm env audio s).1
       ∧ ((playPcm env audio s).1.mixer_ready = true →
            (playPcm env audio s).1 = s
            ∨ (playPcm env audio s).1.mixer_rate = some audio.rate))
    ∧ (∀ env r s, RateInv s →
       RateInv (ensureMixer env r s).2.1
       ∧ ((ensureMixer env r s).2.1.mixer_ready = true →
            (ensureMixer env r s).2.1 = s
            ∨ (ensureMixer env r s).2.1.mixer_rate = some r))
    ∧ (∀ env r, RateInv (tryInitMixer env r).1
       ∧ ((tryInitMixer env r).1.mixer_ready = true →
            (tryInitMixer env r).1.mixer_rate = some r))
    ∧ (∀ s, (shutdownPygame s).1.mixer = initMixerState)
    ∧ RateInv initMixerState := by
  refine ⟨?_, ?_, ?_, ?_, ?_⟩
  · intro env audio s h
    rcases playPcm_state_cases env audio s with hc | hc
    · rw [hc]; exact ⟨h, fun _ => Or.inl rfl⟩
    · rw [hc]
      obtain ⟨hi, hm⟩ := ensureMixer_rateInv env audio.rate s h
      exact ⟨hi, hm⟩
  · intro env r s h
    exact ensureMixer_rateInv env r s h
  · intro env r
    by_cases ho : env.mixerOk r = true <;> simp [tryInitMixer, ho, RateInv]
  · intro s
    simp [shutdownPygame]
  · simp [RateInv, initMixerState]

theorem configured_rate_inv_amended_witness :
    RateInv (playPcm envAllOk ⟨16000, [0, 0, 0, 0, 0]⟩ ⟨true, some 8000⟩).1 :=
  (configured_rate_inv_amended.1 envAllOk ⟨16000, [0, 0, 0, 0, 0]⟩
    ⟨true, some 8000⟩ (fun _ => ⟨8000, rfl⟩)).1

lemma buildKeypadLayout_explicit (w h x0 sz : Int)
    (hsz : sz = min ((w - (3 + 1) * 12) / 3) ((h - 70 - (4 + 1) * 12) / 4))
    (hx0 : x0 = (w - (3 * sz + (3 - 1) * 12)) / 2) :
    buildKeypadLayout w h =
      [('1', ⟨x0 + 0 * (sz + 12), 70 + 0 * (sz + 12), sz, sz⟩),
       ('2', ⟨x0 + 1 * (sz + 12), 70 + 0 * (sz + 12), sz, sz⟩),
       ('3', ⟨x0 + 2 * (sz + 12), 70 + 0 * (sz + 12), sz, sz⟩),
       ('4', ⟨x0 + 0 * (sz + 12), 70 + 1 * (sz + 12), sz, sz⟩),
       ('5', ⟨x0 + 1 * (sz + 12), 70 + 1 * (sz + 12), sz, sz⟩),
       ('6', ⟨x0 + 2 * (sz + 12), 70 + 1 * (sz + 12), sz, sz⟩),
       ('7', ⟨x0 + 0 * (sz + 12), 70 + 2 * (sz + 12), sz, sz⟩),
       ('8', ⟨x0 + 1 * (sz + 12), 70 + 2 * (sz + 12), sz, sz⟩),
       ('9', ⟨x0 + 2 * (sz + 12), 70 + 2 * (sz + 12), sz, sz⟩),
       ('*', ⟨x0 + 0 * (sz + 12), 70 + 3 * (sz + 12), sz, sz⟩),
       ('0', ⟨x0 + 1 * (sz + 12), 70 + 3 * (sz + 12), sz, sz⟩),
       ('#', ⟨x0 + 2 * (sz + 12), 70 + 3 * (sz + 12), sz, sz⟩)] := by
  subst hx0
  subst hsz
  rfl

set_option maxHeartbeats 1000000 in
lemma keypadRects_pairwise (x0 sz : Int) :
    List.Pairwise (fun a b => Rect.overlaps a b = false)
      [(⟨x0 + 0 * (sz + 12), 70 + 0 * (sz + 12), sz, sz⟩ : Rect),
       ⟨x0 + 1 * (sz + 12), 70 + 0 * (sz + 12), sz, sz⟩,
       ⟨x0 + 2 * (sz + 12), 70 + 0 * (sz + 12), sz, sz⟩,
       ⟨x0 + 0 * (sz + 12), 70 + 1 * (sz + 12), sz, sz⟩,
       ⟨x0 + 1 * (sz + 12), 70 + 1 * (sz + 12), sz, sz⟩,
       ⟨x0 + 2 * (sz + 12), 70 + 1 * (sz + 12), sz, sz⟩,
       ⟨x0 + 0 * (sz + 12), 70 + 2 * (sz + 12), sz, sz⟩,
       ⟨x0 + 1 * (sz + 12), 70 + 2 * (sz + 12), sz, sz⟩,
       ⟨x0 + 2 * (sz + 12), 70 + 2 * (sz + 12), sz, sz⟩,
       ⟨x0 + 0 * (sz + 12), 70 + 3 * (sz + 12), sz, sz⟩,
       ⟨x0 + 1 * (sz + 12), 70 + 3 * (sz + 12), sz, sz⟩,
       ⟨x0 + 2 * (sz + 12), 70 + 3 * (sz + 12), sz, sz⟩] := by
  rw [List.pairwise_iff_getElem]
  intro i j hi hj hij
  simp only [List.length_cons, List.length_nil] at hj
  interval_cases j <;> interval_cases i <;>
    (simp only [List.getElem_cons_zero, List.getElem_cons_succ, Rect.overlaps,
       Bool.and_eq_false_iff, decide_eq_false_iff_not, not_lt]
     omega)

/-- C8: the keypad layout is deterministic and well-formed for every window
size: it is a pure function of `(w, h)`; it has exactly 12 entries whose
labels are `1..9,*,0,#` row-major; all 12 rectangles are squares of one
common size; no two rectangles overlap; and the grid is horizontally
centred — the gap left of button `1` and the gap right of the grid differ
by at most one pixel (integer division remainder). -/
theorem keypad_layout_wellformed (w h : Int) :
    buildKeypadLayout w h = buildKeypadLayout w h
    ∧ (buildKeypadLayout w h).length = 12
    ∧ (buildKeypadLayout w h).map Prod.fst = keypadLabels
    ∧ List.Pairwise (fun a b => Rect.overlaps a b = false)
        ((buildKeypadLayout w h).map Prod.snd)
    ∧ ∃ sz x0 : Int,
        (∀ p ∈ buildKeypadLayout w h, p.2.w = sz ∧ p.2.h = sz)
        ∧ ((buildKeypadLayout w h).getD 0 (' ', ⟨0, 0, 0, 0⟩)).2.x = x0
        ∧ 0 ≤ w - 2 * x0 - (3 * sz + 2 * 12)
        ∧ w - 2 * x0 - (3 * sz + 2 * 12) ≤ 1 := by
  obtain ⟨M, hM⟩ : ∃ M : Int,
      M = min ((w - (3 + 1) * 12) / 3) ((h - 70 - (4 + 1) * 12) / 4) :=
    ⟨_, rfl⟩
  have hL := buildKeypadLayout_explicit w h
    ((w - (3 * M + (3 - 1) * 12)) / 2) M hM rfl
  clear hM
  refine ⟨rfl, rfl, rfl, ?_, M, (w - (3 * M + (3 - 1) * 12)) / 2, ?_, ?_, ?_, ?_⟩
  · rw [hL]
    simp only [List.map_cons, List.map_nil]
    exact keypadRects_pairwise _ _
  · rw [hL]
    intro p hp
    simp only [List.mem_cons, List.not_mem_nil, or_false] at hp
    rcases hp with rfl | rfl | rfl | rfl | rfl | rfl | rfl | rfl | rfl | rfl | rfl | rfl <;>
      exact ⟨rfl, rfl⟩
  · rw [hL]
    simp only [List.getD_cons_zero]
    omega
  · omega
  · omega

/-- C7 counterexample: `_send_key` contains no logging call (the module does
not even import `logging`): with a callback that raises on `'5'`, the
events emitted at the call site are exactly the single callback invocation —
no log event.  The claim that the exception is "caught ... and logged" is
therefore false in its logging half. -/
theorem callback_fault_logged_cx :
    envCallbackRaises.cbRaises '5' = true
    ∧ (sendKey envCallbackRaises '5' 0 []).2 = [Ev.callbackCall '5']
    ∧ Ev.logMsg ∉ (sendKey envCallbackRaises '5' 0 []).2 := by
  decide

/-- C7 amended: an exception raised by the DTMF callback is caught at the
call site (`try/except Exception: pass`) and silently discarded — not
logged; the callback is invoked exactly once per event (never retried); and
the loop's control flow is entirely independent of whether the callback
raises: event processing computes the same states and the same effects
under any two environments. -/
theorem callback_fault_contained :
    (∀ (env : Env) (ch : Char) (now : Int) (btns : List Button),
       env.cbRaises ch = true →
         sendKey env ch now btns = (markPressed ch now btns, [Ev.callbackCall ch])
         ∧ (sendKey env ch now btns).2.count (Ev.callbackCall ch) = 1
         ∧ Ev.logMsg ∉ (sendKey env ch now btns).2)
    ∧ (∀ (env₁ env₂ : Env) (now : Int) (evs : List InEvent) (s : IOState),
        processEvents env₁ now evs s = processEvents env₂ now evs s) := by
  constructor
  · intro env ch now btns _
    refine ⟨rfl, ?_, ?_⟩ <;> simp [sendKey, invokeCallback]
  · intro env₁ env₂ now evs
    induction evs with
    | nil => intro s; rfl
    | cons ev rest ih =>
        intro s
        cases ev with
        | quit => rfl
        | keydown ch =>
            by_cases hc : ch ∈ allowedChars
            · simp only [processEvents, hc, if_pos]
              rw [show sendKey env₁ ch now s.buttons = sendKey env₂ ch now s.buttons from rfl,
                ih]
            · simp only [processEvents, hc, if_neg, ite_false]
              exact ih s
        | mousedown btn px py =>
            by_cases hb : btn = 1
            · simp only [processEvents, hb, if_pos]
              rw [show handleClick env₁ px py now s.buttons
                    = handleClick env₂ px py now s.buttons from ?_, ih]
              unfold handleClick
              cases findClicked px py s.buttons <;> rfl
            · simp only [processEvents, hb, if_neg, ite_false]
              exact ih s

theorem callback_fault_contained_witness :
    sendKey envCallbackRaises '5' 0 []
        = (markPressed '5' 0 [], [Ev.callbackCall '5'])
    ∧ (sendKey envCallbackRaises '5' 0 []).2.count (Ev.callbackCall '5') = 1
    ∧ Ev.logMsg ∉ (sendKey envCallbackRaises '5' 0 []).2 :=
  callback_fault_contained.1 envCallbackRaises '5' 0 [] (by decide)

lemma runForever_not_started_outcome (env : Env) (cfg : Config)
    (frames : List Frame) (s : IOState) (h : s.started = false) :
    (runForever env cfg frames s).2.2 ≠ Outcome.alreadyStarted := by
  simp only [runForever, h]
  split_ifs <;> simp_all

/-- C10: `run_forever` is reentrancy-guarded: invoked while `_started` is
already true it returns immediately — no event is emitted and the state
(window, fonts, mixer, buttons, stop flag) is returned untouched; and once
an invocation has terminated (normally or by startup failure) the flag is
false again, so a subsequent invocation is not rejected by the guard but
initializes afresh. -/
theorem run_forever_reentrancy_guard :
    (∀ (env : Env) (cfg : Config) (frames : List Frame) (s : IOState),
       s.started = true →
         runForever env cfg frames s = (s, [], Outcome.alreadyStarted))
    ∧ (∀ (env : Env) (cfg : Config) (frames frames' : List Frame) (s : IOState),
       s.started = false →
       ((runForever env cfg frames s).2.2 = Outcome.finished
         ∨ (runForever env cfg frames s).2.2 = Outcome.startupFailed) →
         (runForever env cfg frames s).1.started = false
         ∧ (runForever env cfg frames' (runForever env cfg frames s).1).2.2
             ≠ Outcome.alreadyStarted) := by
  constructor
  · intro env cfg frames s h
    simp [runForever, h]
  · intro env cfg frames frames' s h hout
    have hstarted : (runForever env cfg frames s).1.started = false := by
      simp only [runForever, h] at hout ⊢
      split_ifs at hout ⊢ with h1 h2 <;> simp_all
    exact ⟨hstarted,
      runForever_not_started_outcome env cfg frames' _ hstarted⟩

theorem run_forever_reentrancy_guard_witness :
    runForever envAllOk ⟨true, 8000, 360, 480⟩ []
        {initIOState with started := true}
      = ({initIOState with started := true}, [], Outcome.alreadyStarted) :=
  run_forever_reentrancy_guard.1 envAllOk ⟨true, 8000, 360, 480⟩ []
    {initIOState with started := true} rfl

/-- C9: a failed device open is never cached: after `_ensure_mixer(r)` fails,
the mixer fields are fully reset (`ready = False`, `rate = None`) and the
call reports failure; the next `_ensure_mixer(r)` — same rate — does not hit
the fast path but performs a fresh open attempt (it emits reconfiguration
events), and succeeds whenever the environment now lets the open succeed. -/
theorem failed_open_not_cached (env env' : Env) (r : Int) (s : MixerState)
    (hfail : (ensureMixer env r s).1 = false) :
    (ensureMixer env r s).2.1 = initMixerState
    ∧ hasReconfig (ensureMixer env' r (ensureMixer env r s).2.1).2.2 = true
    ∧ (env'.mixerOk r = true →
        (ensureMixer env' r (ensureMixer env r s).2.1).1 = true) := by
  by_cases h1 : s.mixer_ready = true ∧ s.mixer_rate = some r
  · simp [ensureMixer_eq, h1] at hfail
  · by_cases ho : env.mixerOk r = true
    · simp [ensureMixer_eq, h1, ho] at hfail
    · by_cases ho' : env'.mixerOk r = true
      · simp [ensureMixer_eq, h1, ho, ho', initMixerState, hasReconfig, isReconfigEv]
      · simp [ensureMixer_eq, h1, ho, ho', initMixerState, hasReconfig, isReconfigEv]

lemma reconfigFlags_from_configured (env : Env) (rs : List Int) :
    ∀ prev : Int, (∀ r ∈ rs, 0 < r ∧ env.mixerOk r = true) →
      reconfigFlags env ⟨true, some prev⟩ rs = expectedFlagsFrom prev rs := by
  induction rs with
  | nil => intro prev _; rfl
  | cons r rs ih =>
      intro prev h
      have hr : 0 < r := (h r (by simp)).1
      have hok : env.mixerOk r = true := (h r (by simp)).2
      have hrest : ∀ x ∈ rs, 0 < x ∧ env.mixerOk x = true := by
        intro x hx; exact h x (by simp [hx])
      by_cases he : prev = r
      · subst he
        have hfast : (⟨true, some prev⟩ : MixerState).mixer_ready = true
            ∧ (⟨true, some prev⟩ : MixerState).mixer_rate = some prev := by simp
        simp only [reconfigFlags, expectedFlagsFrom,
          playPcm_valid_eq env prev hr hok, hfast, if_pos hfast]
        simp [hasReconfig, isReconfigEv, ih prev hrest]
      · have hslow : ¬ ((⟨true, some prev⟩ : MixerState).mixer_ready = true
            ∧ (⟨true, some prev⟩ : MixerState).mixer_rate = some r) := by
          simp [he]
        simp only [reconfigFlags, expectedFlagsFrom,
          playPcm_valid_eq env r hr hok, if_neg hslow]
        simp [hasReconfig, isReconfigEv, ih r hrest, he]
        exact fun hrp => he hrp.symm

/-- C1: for every sequence of valid playback submissions with rates
`r1, ..., rn`, starting from the unconfigured device and an environment in
which every open succeeds, the device is reconfigured (mixer quit and/or
mixer init) exactly at each index whose rate differs from its predecessor,
the first submission always reconfiguring; consecutive equal rates cause no
reconfiguration event at all. -/
theorem playback_reconfigures_iff_rate_changes (env : Env) (rs : List Int)
    (h : ∀ r ∈ rs, 0 < r ∧ env.mixerOk r = true) :
    reconfigFlags env initMixerState rs = expectedFlags rs := by
  cases rs with
  | nil => rfl
  | cons r rs =>
      have hr : 0 < r := (h r (by simp)).1
      have hok : env.mixerOk r = true := (h r (by simp)).2
      have hrest : ∀ x ∈ rs, 0 < x ∧ env.mixerOk x = true := by
        intro x hx; exact h x (by simp [hx])
      have hslow : ¬ (initMixerState.mixer_ready = true
          ∧ initMixerState.mixer_rate = some r) := by
        simp [initMixerState]
      simp only [reconfigFlags, expectedFlags,
        playPcm_valid_eq env r hr hok, if_neg hslow]
      simp [initMixerState, hasReconfig, isReconfigEv,
        reconfigFlags_from_configured env rs r hrest]

theorem playback_reconfigures_iff_rate_changes_witness :
    reconfigFlags envAllOk initMixerState [8000, 8000, 16000, 16000, 8000]
      = expectedFlags [8000, 8000, 16000, 16000, 8000] :=
  playback_reconfigures_iff_rate_changes envAllOk
    [8000, 8000, 16000, 16000, 8000] (by decide)

theorem failed_open_not_cached_witness :
    (ensureMixer envMixerFails 8000 initMixerState).2.1 = initMixerState
    ∧ hasReconfig (ensureMixer envAllOk 8000
        (ensureMixer envMixerFails 8000 initMixerState).2.1).2.2 = true
    ∧ (envAllOk.mixerOk 8000 = true →
        (ensureMixer envAllOk 8000
          (ensureMixer envMixerFails 8000 initMixerState).2.1).1 = true) :=
  failed_open_not_cached envMixerFails envAllOk 8000 initMixerState (by decide)
lemma tryInitMixer_evs (env : Env) (r : Int) :
    ∀ e ∈ (tryInitMixer env r).2, isReconfigEv e = true := by
  unfold tryInitMixer
  by_cases ho : env.mixerOk r = true <;> simp [ho, isReconfigEv]

lemma tryInitMixer_balance (env : Env) (r : Int) :
    succInitCount (tryInitMixer env r).2 = readyBit (tryInitMixer env r).1
    ∧ quitCount (tryInitMixer env r).2 = 0 := by
  unfold tryInitMixer
  by_cases ho : env.mixerOk r = true <;>
    simp [ho, succInitCount, quitCount, readyBit, isSuccInitEv, List.count]

lemma ensureMixer_evs_reconfig (env : Env) (r : Int) (s : MixerState) :
    ∀ e ∈ (ensureMixer env r s).2.2, isReconfigEv e = true := by
  unfold ensureMixer
  by_cases h1 : s.mixer_ready = true ∧ s.mixer_rate = some r
  · simp [h1]
  · simp only [h1, ite_false, if_neg, not_false_iff]
    intro e he
    rcases List.mem_append.mp he with hq | hi
    · by_cases hb : s.mixer_ready <;> simp [hb] at hq
      subst hq; rfl
    · exact tryInitMixer_evs env r e hi

lemma ensureMixer_balance (env : Env) (r : Int) (s : MixerState) :
    succInitCount (ensureMixer env r s).2.2 + readyBit s
      = quitCount (ensureMixer env r s).2.2
        + readyBit (ensureMixer env r s).2.1 := by
  unfold ensureMixer
  by_cases h1 : s.mixer_ready = true ∧ s.mixer_rate = some r
  · simp [h1, succInitCount, quitCount]
  · simp only [h1, ite_false, if_neg, not_false_iff]
    by_cases hb : s.mixer_ready <;> by_cases ho : env.mixerOk r = true <;>
      simp [hb, ho, tryInitMixer, succInitCount, quitCount, readyBit,
        isSuccInitEv, List.count]

lemma playPcm_parts (env : Env) (a : PcmAudio) (s : MixerState) :
    playPcm env a s = (s, [])
    ∨ playPcm env a s
        = ((ensureMixer env a.rate s).2.1, (ensureMixer env a.rate s).2.2)
    ∨ playPcm env a s
        = ((ensureMixer env a.rate s).2.1,
           (ensureMixer env a.rate s).2.2 ++ [Ev.soundPlay]) := by
  unfold playPcm
  by_cases hd : a.data = []
  · simp [hd]
  · by_cases hr0 : a.rate ≤ 0
    · simp [hd, hr0]
    · by_cases hf : (ensureMixer env a.rate s).1 = false
      · simp [hd, hr0, hf]
      · by_cases hodd : a.data.length % 2 ≠ 0 <;> simp [hd, hr0, hf, hodd]

lemma playPcm_evs (env : Env) (a : PcmAudio) (s : MixerState) :
    ∀ e ∈ (playPcm env a s).2, loopEvClass e := by
  have hcls := ensureMixer_evs_reconfig env a.rate s
  rcases playPcm_parts env a s with h | h | h <;> rw [h] <;> intro e he
  · simp at he
  · exact Or.inl (hcls e he)
  · rcases List.mem_append.mp he with h2 | h2
    · exact Or.inl (hcls e h2)
    · simp at h2
      subst h2
      exact Or.inr (Or.inl rfl)

lemma playPcm_balance (env : Env) (a : PcmAudio) (s : MixerState) :
    succInitCount (playPcm env a s).2 + readyBit s
      = quitCount (playPcm env a s).2 + readyBit (playPcm env a s).1 := by
  have hbal := ensureMixer_balance env a.rate s
  rcases playPcm_parts env a s with h | h | h <;> rw [h] <;> dsimp only
  · simp [succInitCount, quitCount]
  · exact hbal
  · rw [succInitCount, quitCount, List.countP_append, List.count_append]
    have h1 : List.countP isSuccInitEv [Ev.soundPlay] = 0 := rfl
    have h2 : List.count Ev.mixerQuit [Ev.soundPlay] = 0 := rfl
    rw [h1, h2]
    rw [succInitCount, quitCount] at hbal
    omega

lemma runPlays_evs (env : Env) (ps : List PcmAudio) :
    ∀ m : MixerState, ∀ e ∈ (runPlays env ps m).2, loopEvClass e := by
  induction ps with
  | nil => intro m e he; simp [runPlays] at he
  | cons a rest ih =>
      intro m e he
      simp only [runPlays] at he
      rcases List.mem_append.mp he with h | h
      · exact playPcm_evs env a m e h
      · exact ih _ e h

lemma runPlays_balance (env : Env) (ps : List PcmAudio) :
    ∀ m : MixerState,
      succInitCount (runPlays env ps m).2 + readyBit m
        = quitCount (runPlays env ps m).2 + readyBit (runPlays env ps m).1 := by
  induction ps with
  | nil => intro m; simp [runPlays, succInitCount, quitCount]
  | cons a rest ih =>
      intro m
      simp only [runPlays]
      rw [succInitCount, quitCount, List.countP_append, List.count_append]
      have h1 := playPcm_balance env a m
      have h2 := ih (playPcm env a m).1
      rw [succInitCount, quitCount] at h1 h2
      omega

lemma callbackOnly_counts (evs : List Ev)
    (h : ∀ e ∈ evs, ∃ ch, e = Ev.callbackCall ch) :
    succInitCount evs = 0 ∧ quitCount evs = 0 := by
  constructor
  · rw [succInitCount, List.countP_eq_zero]
    intro e he
    obtain ⟨ch, rfl⟩ := h e he
    simp [isSuccInitEv]
  · rw [quitCount, List.count_eq_zero]
    intro hmem
    obtain ⟨ch, hc⟩ := h _ hmem
    simp at hc

lemma loopClass_counts (evs : List Ev) (h : ∀ e ∈ evs, loopEvClass e) :
    evs.count Ev.displayQuit = 0 ∧ evs.count Ev.pygameQuit = 0 := by
  constructor <;> rw [List.count_eq_zero] <;> intro hmem <;>
    rcases h _ hmem with hc | hc | ⟨ch, hc⟩ <;> simp [isReconfigEv] at hc

lemma processEvents_spec (env : Env) (now : Int) :
    ∀ (evs : List InEvent) (s : IOState),
      (processEvents env now evs s).1.mixer = s.mixer
      ∧ ∀ e ∈ (processEvents env now evs s).2, ∃ ch, e = Ev.callbackCall ch := by
  intro evs
  induction evs with
  | nil => intro s; exact ⟨rfl, by simp [processEvents]⟩
  | cons ev rest ih =>
      intro s
      cases ev with
      | quit => exact ⟨rfl, by simp [processEvents]⟩
      | keydown ch =>
          by_cases hc : ch ∈ allowedChars
          · simp only [processEvents, hc, if_pos]
            refine ⟨(ih _).1, ?_⟩
            intro e he
            rcases List.mem_append.mp he with h | h
            · simp [sendKey, invokeCallback] at h
              exact ⟨ch, h⟩
            · exact (ih _).2 e h
          · simp only [processEvents, hc, if_neg, ite_false, not_false_iff]
            exact ih _
      | mousedown btn px py =>
          by_cases hb : btn = 1
          · simp only [processEvents, hb, if_pos]
            refine ⟨(ih _).1, ?_⟩
            intro e he
            rcases List.mem_append.mp he with h | h
            · unfold handleClick at h
              cases hf : findClicked px py s.buttons with
              | none => rw [hf] at h; simp at h
              | some c =>
                  rw [hf] at h
                  simp [sendKey, invokeCallback] at h
                  exact ⟨c, h⟩
            · exact (ih _).2 e h
          · simp only [processEvents, hb, if_neg, ite_false, not_false_iff]
            exact ih _

lemma loopStep_spec (env : Env) (f : Frame) (s : IOState) :
    (∀ e ∈ (loopStep env f s).2, loopEvClass e)
    ∧ succInitCount (loopStep env f s).2 + readyBit s.mixer
        = quitCount (loopStep env f s).2 + readyBit (loopStep env f s).1.mixer := by
  obtain ⟨hpm, hpe⟩ := processEvents_spec env f.now f.events s
  unfold loopStep
  dsimp only
  constructor
  · intro e he
    rcases List.mem_append.mp he with h | h
    · obtain ⟨ch, rfl⟩ := hpe e h
      exact Or.inr (Or.inr ⟨ch, rfl⟩)
    · exact runPlays_evs env f.plays _ e h
  · obtain ⟨hs0, hq0⟩ := callbackOnly_counts _ hpe
    have hrp := runPlays_balance env f.plays (processEvents env f.now f.events s).1.mixer
    simp only [succInitCount, quitCount, List.countP_append, List.count_append] at hs0 hq0 hrp ⊢
    have hpm' : readyBit (processEvents env f.now f.events s).1.mixer
        = readyBit s.mixer := by rw [hpm]
    omega

lemma runLoop_cons_not_stop (env : Env) (f : Frame) (fs : List Frame)
    (s : IOState) (h : ¬ s.stop = true) :
    runLoop env (f :: fs) s
      = ((runLoop env fs (loopStep env f s).1).1,
         (loopStep env f s).2 ++ (runLoop env fs (loopStep env f s).1).2.1,
         (runLoop env fs (loopStep env f s).1).2.2) := by
  simp [runLoop, h]

lemma runLoop_spec (env : Env) (frames : List Frame) :
    ∀ s : IOState,
      (∀ e ∈ (runLoop env frames s).2.1, loopEvClass e)
      ∧ succInitCount (runLoop env frames s).2.1 + readyBit s.mixer
          = quitCount (runLoop env frames s).2.1
            + readyBit (runLoop env frames s).1.mixer := by
  induction frames with
  | nil =>
      intro s
      constructor
      · intro e he; simp [runLoop] at he
      · simp [runLoop, succInitCount, quitCount]
  | cons f fs ih =>
      intro s
      by_cases hstop : s.stop = true
      · constructor
        · intro e he; simp [runLoop, hstop] at he
        · simp [runLoop, hstop, succInitCount, quitCount]
      · rw [runLoop_cons_not_stop env f fs s hstop]
        obtain ⟨hls, hlb⟩ := loopStep_spec env f s
        obtain ⟨hrs, hrb⟩ := ih (loopStep env f s).1
        constructor
        · intro e he
          rcases List.mem_append.mp he with h | h
          · exact hls e h
          · exact hrs e h
        · simp only [succInitCount, quitCount, List.countP_append,
            List.count_append] at hlb hrb ⊢
          omega

lemma shutdownEvents_counts (m : MixerState) :
    (shutdownMixerEvents m).count Ev.displayQuit = 1
    ∧ (shutdownMixerEvents m).count Ev.pygameQuit = 1
    ∧ succInitCount (shutdownMixerEvents m) = 0
    ∧ quitCount (shutdownMixerEvents m) = readyBit m := by
  unfold shutdownMixerEvents
  by_cases hb : m.mixer_ready <;>
    simp [hb, succInitCount, quitCount, readyBit, isSuccInitEv, List.count]

lemma adapterPlay_stopped (env : Env) (audio : PcmAudio) (m : MixerState) :
    adapterPlay env AdapterState.STOPPED audio m = (m, []) := rfl

lemma runForever_failure_eq (env : Env) (cfg : Config) (frames : List Frame)
    (s : IOState) (h1 : ¬ s.started = true)
    (h2 : cfg.show_window = true ∧ env.displayOk = false) :
    runForever env cfg frames s
      = ({s with mixer := initMixerState, started := false, screen := false},
         [Ev.pygameInit, Ev.setMode] ++ shutdownMixerEvents s.mixer,
         Outcome.startupFailed) := by
  simp [runForever, h1, h2, shutdownPygame]

lemma runForever_finished_eq (env : Env) (cfg : Config) (frames : List Frame)
    (s : IOState) (h1 : ¬ s.started = true)
    (h2 : ¬ (cfg.show_window = true ∧ env.displayOk = false))
    (h3 : (runLoop env frames (startState env cfg s)).2.2 = true) :
    runForever env cfg frames s
      = ({(shutdownPygame (runLoop env frames (startState env cfg s)).1).1
            with started := false, screen := false},
         startEvsOf env cfg
           ++ ((runLoop env frames (startState env cfg s)).2.1
           ++ shutdownMixerEvents
               (runLoop env frames (startState env cfg s)).1.mixer),
         Outcome.finished) := by
  have h3' := h3
  simp only [startState] at h3'
  simp [runForever, h1, h2, h3', startState, startEvsOf, shutdownPygame,
    List.append_assoc]

lemma runForever_outOfFrames_eq (env : Env) (cfg : Config)
    (frames : List Frame) (s : IOState) (h1 : ¬ s.started = true)
    (h2 : ¬ (cfg.show_window = true ∧ env.displayOk = false))
    (h3 : ¬ (runLoop env frames (startState env cfg s)).2.2 = true) :
    (runForever env cfg frames s).2.2 = Outcome.outOfFrames := by
  have h3' := h3
  simp only [startState, Bool.not_eq_true] at h3'
  simp [runForever, h1, h2, h3', startState]

lemma startEvs_counts (env : Env) (cfg : Config) :
    (startEvsOf env cfg).count Ev.displayQuit = 0
    ∧ (startEvsOf env cfg).count Ev.pygameQuit = 0
    ∧ succInitCount (startEvsOf env cfg)
        = readyBit (tryInitMixer env cfg.default_rate).1
    ∧ quitCount (startEvsOf env cfg) = 0 := by
  obtain ⟨hs, hq⟩ := tryInitMixer_balance env cfg.default_rate
  have hcls : ∀ e ∈ (tryInitMixer env cfg.default_rate).2, loopEvClass e :=
    fun e he => Or.inl (tryInitMixer_evs _ _ e he)
  obtain ⟨hd0, hp0⟩ := loopClass_counts _ hcls
  rw [succInitCount] at hs
  rw [quitCount] at hq
  unfold startEvsOf
  refine ⟨?_, ?_, ?_, ?_⟩ <;>
    by_cases hwin : cfg.show_window <;>
      simp [hwin, List.count_append, succInitCount, quitCount,
        List.countP_append, List.count_cons, isSuccInitEv, hd0, hp0, hs, hq]

lemma adapterPlay_running_reopens (env' : Env) (r : Int) (hr : 0 < r)
    (hok : env'.mixerOk r = true) :
    (adapterPlay env' AdapterState.RUNNING (validAudio r) initMixerState).1
      = ⟨true, some r⟩
    ∧ Ev.mixerInit r true
        ∈ (adapterPlay env' AdapterState.RUNNING (validAudio r)
            initMixerState).2 := by
  have hslow : ¬ (initMixerState.mixer_ready = true
      ∧ initMixerState.mixer_rate = some r) := by simp [initMixerState]
  have hpp := playPcm_valid_eq env' r hr hok initMixerState
  rw [if_neg hslow] at hpp
  have hap : adapterPlay env' AdapterState.RUNNING (validAudio r) initMixerState
      = playPcm env' (validAudio r) initMixerState := rfl
  rw [hap, hpp]
  simp [initMixerState]

/-- C5 counterexample: a window-close (`QUIT`) exit finishes the loop and
leaves the device closed, but nothing on that exit path changes the
adapter state — only `PcAdapter.stop()` ever produces `STOPPED` — so the
adapter is still `RUNNING`, and a later `play` call then freshly reopens
the device (`pygame.mixer.init` succeeds and the mixer is configured
again).  The device is therefore not "closed permanently"; the claim's
no-later-operation-reopens-it conjunct is false. -/
theorem loop_device_permanence_cx :
    (runForever envAllOk ⟨true, 8000, 360, 480⟩
        [⟨0, [InEvent.quit], []⟩] initIOState).2.2 = Outcome.finished
    ∧ (runForever envAllOk ⟨true, 8000, 360, 480⟩
        [⟨0, [InEvent.quit], []⟩] initIOState).1.mixer = initMixerState
    ∧ adapterStop AdapterState.RUNNING = AdapterState.STOPPED
    ∧ adapterStop AdapterState.INITIALIZED = AdapterState.INITIALIZED
    ∧ (adapterPlay envAllOk AdapterState.RUNNING ⟨8000, [0, 0]⟩
        (runForever envAllOk ⟨true, 8000, 360, 480⟩
          [⟨0, [InEvent.quit], []⟩] initIOState).1.mixer).1
        = ⟨true, some 8000⟩
    ∧ Ev.mixerInit 8000 true
        ∈ (adapterPlay envAllOk AdapterState.RUNNING ⟨8000, [0, 0]⟩
            (runForever envAllOk ⟨true, 8000, 360, 480⟩
              [⟨0, [InEvent.quit], []⟩] initIOState).1.mixer).2 := by
  decide

/-- C5 amended: on every exit path of the loop — explicit stop or window
close (`finished`) and exception during startup (`startupFailed`) — the
window subsystem is released exactly once (`pygame.display.quit` and
`pygame.quit` each appear once in the trace), every successful device open
is matched by exactly one device close, and the exit leaves the mixer
unconfigured with the started flag and surface cleared.  The device is,
however, not closed permanently: the loop exit does not change the adapter
state, and while the adapter is `RUNNING` a later `play` freshly reopens
the device at the requested rate; only after `PcAdapter.stop()` has moved
the adapter to `STOPPED` does `play` perform no device operation at all. -/
theorem loop_releases_resources_amended (env : Env) (cfg : Config)
    (frames : List Frame)
    (hexit : (runForever env cfg frames initIOState).2.2 = Outcome.finished
      ∨ (runForever env cfg frames initIOState).2.2 = Outcome.startupFailed) :
    (runForever env cfg frames initIOState).2.1.count Ev.displayQuit = 1
    ∧ (runForever env cfg frames initIOState).2.1.count Ev.pygameQuit = 1
    ∧ succInitCount (runForever env cfg frames initIOState).2.1
        = quitCount (runForever env cfg frames initIOState).2.1
    ∧ (runForever env cfg frames initIOState).1.mixer = initMixerState
    ∧ (runForever env cfg frames initIOState).1.started = false
    ∧ (runForever env cfg frames initIOState).1.screen = false
    ∧ (∀ (env' : Env) (audio : PcmAudio) (m : MixerState),
         adapterPlay env' AdapterState.STOPPED audio m = (m, []))
    ∧ adapterStop AdapterState.RUNNING = AdapterState.STOPPED
    ∧ (∀ (env' : Env) (r : Int), 0 < r → env'.mixerOk r = true →
         (adapterPlay env' AdapterState.RUNNING (validAudio r)
             (runForever env cfg frames initIOState).1.mixer).1
           = ⟨true, some r⟩) := by
  have h1 : ¬ (initIOState.started = true) := by decide
  by_cases h2 : cfg.show_window = true ∧ env.displayOk = false
  · rw [runForever_failure_eq env cfg frames initIOState h1 h2]
    exact ⟨by decide, by decide, by decide, rfl, rfl, rfl,
      fun env' audio m => adapterPlay_stopped env' audio m, rfl,
      fun env' r hr hok => (adapterPlay_running_reopens env' r hr hok).1⟩
  · by_cases h3 : (runLoop env frames (startState env cfg initIOState)).2.2 = true
    · rw [runForever_finished_eq env cfg frames initIOState h1 h2 h3]
      obtain ⟨hd0s, hp0s, hsuc, hquit⟩ := startEvs_counts env cfg
      obtain ⟨hcls, hbal⟩ := runLoop_spec env frames (startState env cfg initIOState)
      obtain ⟨hd0l, hp0l⟩ := loopClass_counts _ hcls
      obtain ⟨hsd, hsp, hss, hsq⟩ :=
        shutdownEvents_counts (runLoop env frames (startState env cfg initIOState)).1.mixer
      refine ⟨?_, ?_, ?_, ?_, rfl, rfl,
        fun env' audio m => adapterPlay_stopped env' audio m, rfl,
        fun env' r hr hok => (adapterPlay_running_reopens env' r hr hok).1⟩
      · simp [List.count_append, hd0s, hd0l, hsd]
      · simp [List.count_append, hp0s, hp0l, hsp]
      · have hstart : readyBit (startState env cfg initIOState).mixer
            = readyBit (tryInitMixer env cfg.default_rate).1 := rfl
        simp only [succInitCount, quitCount, List.countP_append,
          List.count_append] at hsuc hquit hss hsq hbal ⊢
        omega
      · simp [shutdownPygame]
    · have ho := runForever_outOfFrames_eq env cfg frames initIOState h1 h2 h3
      rw [ho] at hexit
      rcases hexit with hx | hx <;> cases hx

theorem loop_releases_resources_amended_witness :
    (runForever envAllOk ⟨true, 8000, 360, 480⟩
        [⟨0, [InEvent.quit], []⟩] initIOState).2.1.count Ev.displayQuit = 1
    ∧ (adapterPlay envAllOk AdapterState.RUNNING (validAudio 16000)
        (runForever envAllOk ⟨true, 8000, 360, 480⟩
          [⟨0, [InEvent.quit], []⟩] initIOState).1.mixer).1
        = ⟨true, some 16000⟩ :=
  ⟨(loop_releases_resources_amended envAllOk ⟨true, 8000, 360, 480⟩
      [⟨0, [InEvent.quit], []⟩] (Or.inl (by decide))).1,
   (loop_releases_resources_amended envAllOk ⟨true, 8000, 360, 480⟩
      [⟨0, [InEvent.quit], []⟩]
      (Or.inl (by decide))).2.2.2.2.2.2.2.2 envAllOk 16000 (by decide) rfl⟩

/-- C6 counterexample: with the display unavailable (`set_mode` raises),
`PcAdapter.start` still returns normally — no `InitializationError`, the
adapter state becomes `RUNNING` — while the failure happens later inside
the background `run_forever` task.  The claim that the failure is surfaced
synchronously to the caller of `start` is therefore false. -/
theorem start_error_surfaced_cx :
    envDisplayFails.displayOk = false
    ∧ adapterStart envDisplayFails AdapterState.INITIALIZED
        = Except.ok AdapterState.RUNNING
    ∧ (runForever envDisplayFails ⟨true, 8000, 360, 480⟩ [] initIOState).2.2
        = Outcome.startupFailed :=
  ⟨rfl, rfl, rfl⟩

/-- C6 amended: `start` itself never raises and its synchronous result is
independent of the environment (the coroutine is only scheduled, not run);
the windowing failure manifests asynchronously inside the loop task, which
retains no partial state: it releases everything and ends with the mixer
unconfigured, the surface dropped and the started flag cleared, reporting
`startupFailed`. -/
theorem start_failure_amended :
    (∀ (env : Env) (st : AdapterState),
        adapterStart env st = adapterStart envAllOk st
        ∧ ∀ e : InitializationError, adapterStart env st ≠ Except.error e)
    ∧ (∀ (env : Env) (cfg : Config) (frames : List Frame) (s : IOState),
        s.started = false → cfg.show_window = true → env.displayOk = false →
          runForever env cfg frames s
            = ({s with mixer := initMixerState, started := false, screen := false},
               [Ev.pygameInit, Ev.setMode] ++ shutdownMixerEvents s.mixer,
               Outcome.startupFailed)) := by
  constructor
  · intro env st
    constructor
    · rfl
    · intro e
      unfold adapterStart
      split_ifs <;> simp
  · intro env cfg frames s hs hw hd
    exact runForever_failure_eq env cfg frames s (by simp [hs]) ⟨hw, hd⟩

theorem start_failure_amended_witness :
    runForever envDisplayFails ⟨true, 8000, 360, 480⟩ [] initIOState
      = ({initIOState with mixer := initMixerState, started := false, screen := false},
         [Ev.pygameInit, Ev.setMode] ++ shutdownMixerEvents initIOState.mixer,
         Outcome.startupFailed) :=
  start_failure_amended.2 envDisplayFails ⟨true, 8000, 360, 480⟩ [] initIOState
    rfl rfl rfl
